import Mathlib

/-!
Verification development for the ClawCloud repository.

The on-chain part (contracts/ClawCloudVMs.sol, Solidity 0.8 with checked
arithmetic) is embedded as a pure state machine over `ContractState`:
every external function becomes a Lean function returning
`Except String ContractState` where `Except.error` is a revert (the EVM
rolls the whole transaction back, so a revert leaves the pre-state).
uint256 arithmetic is `Nat` guarded by `checkedAdd`/`checkedMul`, which
fail exactly when Solidity 0.8 checked arithmetic would revert with an
overflow panic.

The off-chain part (backend/provisioner.js and the event listener) is
embedded in namespace `Backend`: cloud calls are abstracted by an
environment record carrying the responses the cloud would give, and the
handler threads an explicit world (chain state, per-token count of cloud
create calls, status store).
-/

namespace ClawCloud

/-- Solidity 0.8 checked arithmetic reverts when a result reaches 2^256. -/
def UINT256_BOUND : Nat := 2 ^ 256

/-- Checked uint256 addition: `none` models the overflow revert. -/
def checkedAdd (a b : Nat) : Option Nat :=
  if a + b < UINT256_BOUND then some (a + b) else none

/-- Checked uint256 multiplication: `none` models the overflow revert. -/
def checkedMul (a b : Nat) : Option Nat :=
  if a * b < UINT256_BOUND then some (a * b) else none

/-- GRACE_PERIOD = 7 days (in seconds). -/
def GRACE_PERIOD : Nat := 7 * 86400

/-- SECONDS_PER_MONTH = 2629800 (30.44 day average month). -/
def SECONDS_PER_MONTH : Nat := 2629800

def TIER_MICRO_PRICE : Nat := 5 * 10 ^ 6

def TIER_SMALL_PRICE : Nat := 10 * 10 ^ 6

def TIER_MEDIUM_PRICE : Nat := 25 * 10 ^ 6

def TIER_LARGE_PRICE : Nat := 50 * 10 ^ 6

def TIER_XLARGE_PRICE : Nat := 100 * 10 ^ 6

/-- enum Tier of ClawCloudVMs.sol. -/
inductive Tier
  | MICRO
  | SMALL
  | MEDIUM
  | LARGE
  | XLARGE
deriving DecidableEq, Repr

/-- Solidity cast Tier(tier) for a uint8 already checked to be at most 4. -/
def tierOfNat : Nat → Tier
  | 0 => .MICRO
  | 1 => .SMALL
  | 2 => .MEDIUM
  | 3 => .LARGE
  | _ => .XLARGE

/-- enum Status of ClawCloudVMs.sol. -/
inductive Status
  | PROVISIONING
  | ACTIVE
  | SUSPENDED
  | TERMINATED
deriving DecidableEq, Repr

/-- Function _getTierPrice of ClawCloudVMs.sol. -/
def getTierPrice : Tier → Nat
  | .MICRO => TIER_MICRO_PRICE
  | .SMALL => TIER_SMALL_PRICE
  | .MEDIUM => TIER_MEDIUM_PRICE
  | .LARGE => TIER_LARGE_PRICE
  | .XLARGE => TIER_XLARGE_PRICE

/-- struct VM of ClawCloudVMs.sol. -/
structure VM where
  tier : Tier
  purchasedAt : Nat
  expiresAt : Nat
  durationMonths : Nat
  instanceId : String
  ipAddress : String
  status : Status
  provisionedAt : Nat
  lastRenewal : Nat
deriving DecidableEq, Repr

/-- The zero value of a Solidity VM struct: what a mapping returns for an
unset key and what `delete vms[tokenId]` resets the slot to. -/
def defaultVM : VM :=
  { tier := Tier.MICRO
    purchasedAt := 0
    expiresAt := 0
    durationMonths := 0
    instanceId := ""
    ipAddress := ""
    status := Status.PROVISIONING
    provisionedAt := 0
    lastRenewal := 0 }

/-- Pointwise update of a Solidity mapping. -/
def setMap {α : Type} (m : Nat → α) (k : Nat) (v : α) : Nat → α :=
  fun i => if i = k then v else m i

/-- The USDC ERC20 token as the contract uses it: balances, and for each
holder the allowance granted to the ClawCloudVMs contract. -/
structure TokenState where
  balances : Nat → Nat
  allowance : Nat → Nat

/-- safeTransferFrom(from, to, amount) as invoked by the contract: succeeds
iff the allowance to the contract and the balance of the payer cover the
amount; `none` models the reverting transfer (SafeERC20 bubbles it up). -/
def TokenState.transferFrom (t : TokenState) (fromA toA amount : Nat) :
    Option TokenState :=
  if amount ≤ t.allowance fromA ∧ amount ≤ t.balances fromA then
    match checkedAdd (setMap t.balances fromA (t.balances fromA - amount) toA) amount with
    | some v =>
        some { balances := setMap (setMap t.balances fromA (t.balances fromA - amount)) toA v
               allowance := setMap t.allowance fromA (t.allowance fromA - amount) }
    | none => none
  else none

/-- Storage of the ClawCloudVMs contract.  Addresses are Nat (0 is the zero
address).  `owners` is the ERC721 _ownerOf mapping: `none` means the token
does not exist. -/
structure ContractState where
  token : TokenState
  treasury : Nat
  provisioner : Nat
  contractOwner : Nat
  tokenIdCounter : Nat
  owners : Nat → Option Nat
  vms : Nat → VM
  everProvisioned : Nat → Bool
  paused : Bool

/-- Function _exists(tokenId) of ClawCloudVMs.sol. -/
def existsToken (s : ContractState) (tokenId : Nat) : Bool :=
  (s.owners tokenId).isSome

/-- purchaseVM(tier, durationMonths) of ClawCloudVMs.sol, called by `sender`
at block timestamp `now`.  Returns the post-state and the minted token id. -/
def purchaseVM (s : ContractState) (sender now tier durationMonths : Nat) :
    Except String (ContractState × Nat) :=
  if s.paused then .error "Pausable: paused"
  else if tier ≤ 4 then
    if 0 < durationMonths ∧ durationMonths ≤ 12 then
      match checkedMul (getTierPrice (tierOfNat tier)) durationMonths with
      | none => .error "arithmetic overflow"
      | some totalCost =>
        match s.token.transferFrom sender s.treasury totalCost with
        | none => .error "ERC20 transfer failed"
        | some token1 =>
          match checkedAdd s.tokenIdCounter 1 with
          | none => .error "arithmetic overflow"
          | some counter1 =>
            if sender = 0 then .error "ERC721 mint to the zero address"
            else if (s.owners s.tokenIdCounter).isSome then .error "ERC721 token already minted"
            else
              match checkedMul durationMonths SECONDS_PER_MONTH with
              | none => .error "arithmetic overflow"
              | some dur =>
                match checkedAdd now dur with
                | none => .error "arithmetic overflow"
                | some expiry =>
                  .ok ({ s with
                          token := token1
                          tokenIdCounter := counter1
                          owners := setMap s.owners s.tokenIdCounter (some sender)
                          vms := setMap s.vms s.tokenIdCounter
                            { tier := tierOfNat tier
                              purchasedAt := now
                              expiresAt := expiry
                              durationMonths := durationMonths
                              instanceId := ""
                              ipAddress := ""
                              status := Status.PROVISIONING
                              provisionedAt := 0
                              lastRenewal := now } }, s.tokenIdCounter)
    else .error "Duration must be 1-12 months"
  else .error "Invalid tier"

/-- setVMProvisioned(tokenId, instanceId, ipAddress) of ClawCloudVMs.sol,
called by `sender` at block timestamp `now`. -/
def setVMProvisioned (s : ContractState) (sender now tokenId : Nat)
    (instanceId ipAddress : String) : Except String ContractState :=
  if sender = s.provisioner then
    if (s.owners tokenId).isSome then
      if (s.vms tokenId).status = Status.PROVISIONING then
        if now < (s.vms tokenId).expiresAt then
          if 0 < instanceId.length then
            if 0 < ipAddress.length then
              .ok { s with
                      vms := setMap s.vms tokenId
                        { s.vms tokenId with
                            instanceId := instanceId
                            ipAddress := ipAddress
                            status := Status.ACTIVE
                            provisionedAt := now }
                      everProvisioned := setMap s.everProvisioned tokenId true }
            else .error "Invalid IP address"
          else .error "Invalid instance ID"
        else .error "VM expired"
      else .error "VM already provisioned"
    else .error "VM does not exist"
  else .error "Only provisioner"

/-- renewVM(tokenId, additionalMonths) of ClawCloudVMs.sol, called by
`sender` at block timestamp `now`.  The expired branch of the source tests
block.timestamp > vm.expiresAt, a strict comparison. -/
def renewVM (s : ContractState) (sender now tokenId additionalMonths : Nat) :
    Except String ContractState :=
  if s.paused then .error "Pausable: paused"
  else if (s.owners tokenId).isSome then
    if s.owners tokenId = some sender then
      if 0 < additionalMonths ∧ additionalMonths ≤ 12 then
        if (s.vms tokenId).status ≠ Status.TERMINATED then
          match checkedAdd (s.vms tokenId).expiresAt GRACE_PERIOD with
          | none => .error "arithmetic overflow"
          | some graceEnd =>
            if now < graceEnd then
              match checkedMul (getTierPrice (s.vms tokenId).tier) additionalMonths with
              | none => .error "arithmetic overflow"
              | some renewalCost =>
                match s.token.transferFrom sender s.treasury renewalCost with
                | none => .error "ERC20 transfer failed"
                | some token1 =>
                  match checkedMul additionalMonths SECONDS_PER_MONTH with
                  | none => .error "arithmetic overflow"
                  | some ext =>
                    if (s.vms tokenId).expiresAt < now then
                      match checkedAdd now ext with
                      | none => .error "arithmetic overflow"
                      | some newExp =>
                        .ok { s with
                                token := token1
                                vms := setMap s.vms tokenId
                                  { s.vms tokenId with
                                      expiresAt := newExp
                                      status :=
                                        if (s.vms tokenId).status = Status.SUSPENDED then
                                          Status.ACTIVE
                                        else (s.vms tokenId).status
                                      lastRenewal := now } }
                    else
                      match checkedAdd (s.vms tokenId).expiresAt ext with
                      | none => .error "arithmetic overflow"
                      | some newExp =>
                        .ok { s with
                                token := token1
                                vms := setMap s.vms tokenId
                                  { s.vms tokenId with
                                      expiresAt := newExp
                                      lastRenewal := now } }
            else .error "VM expired beyond grace period"
        else .error "VM terminated"
      else .error "Invalid duration"
    else .error "Not VM owner"
  else .error "VM does not exist"

/-- terminateVM(tokenId) of ClawCloudVMs.sol: the status is set to
TERMINATED, the NFT is burned, then the record is deleted, so the final
slot is the zero struct and the owner entry is cleared. -/
def terminateVM (s : ContractState) (sender _now tokenId : Nat) :
    Except String ContractState :=
  if (s.owners tokenId).isSome then
    if s.owners tokenId = some sender then
      if (s.vms tokenId).status ≠ Status.TERMINATED then
        .ok { s with
                owners := setMap s.owners tokenId none
                vms := setMap s.vms tokenId defaultVM }
      else .error "Already terminated"
    else .error "Not VM owner"
  else .error "VM does not exist"

/-- suspendVM(tokenId) of ClawCloudVMs.sol. -/
def suspendVM (s : ContractState) (sender _now tokenId : Nat) :
    Except String ContractState :=
  if (s.owners tokenId).isSome then
    if s.owners tokenId = some sender ∨ sender = s.provisioner then
      if (s.vms tokenId).status = Status.ACTIVE then
        .ok { s with
                vms := setMap s.vms tokenId
                  { s.vms tokenId with status := Status.SUSPENDED } }
      else .error "VM not active"
    else .error "Not authorized"
  else .error "VM does not exist"

/-- reactivateVM(tokenId) of ClawCloudVMs.sol. -/
def reactivateVM (s : ContractState) (sender now tokenId : Nat) :
    Except String ContractState :=
  if (s.owners tokenId).isSome then
    if s.owners tokenId = some sender then
      if (s.vms tokenId).status = Status.SUSPENDED then
        if now < (s.vms tokenId).expiresAt then
          .ok { s with
                  vms := setMap s.vms tokenId
                    { s.vms tokenId with status := Status.ACTIVE } }
        else .error "VM expired, use renewVM"
      else .error "VM not suspended"
    else .error "Not VM owner"
  else .error "VM does not exist"

/-- updateIPAddress(tokenId, newIP) of ClawCloudVMs.sol. -/
def updateIPAddress (s : ContractState) (sender tokenId : Nat) (newIP : String) :
    Except String ContractState :=
  if sender = s.provisioner then
    if (s.owners tokenId).isSome then
      if (s.vms tokenId).status ≠ Status.TERMINATED then
        if 0 < newIP.length then
          .ok { s with
                  vms := setMap s.vms tokenId
                    { s.vms tokenId with ipAddress := newIP } }
        else .error "Invalid IP"
      else .error "VM terminated"
    else .error "VM does not exist"
  else .error "Only provisioner"

/-- ERC721 transferFrom as far as this contract observes it: requires the
token to exist, the sender to be its current owner, and a nonzero
recipient (approvals are not modelled; they only widen who may call). -/
def transferVM (s : ContractState) (sender toA tokenId : Nat) :
    Except String ContractState :=
  if s.owners tokenId = some sender then
    if toA ≠ 0 then
      .ok { s with owners := setMap s.owners tokenId (some toA) }
    else .error "ERC721 transfer to the zero address"
  else .error "ERC721 caller is not token owner"

/-- setTreasury(newTreasury) of ClawCloudVMs.sol. -/
def setTreasury (s : ContractState) (sender newTreasury : Nat) :
    Except String ContractState :=
  if sender = s.contractOwner then
    if newTreasury ≠ 0 then .ok { s with treasury := newTreasury }
    else .error "Invalid address"
  else .error "Ownable caller is not the owner"

/-- setProvisioner(newProvisioner) of ClawCloudVMs.sol. -/
def setProvisioner (s : ContractState) (sender newProvisioner : Nat) :
    Except String ContractState :=
  if sender = s.contractOwner then
    if newProvisioner ≠ 0 then .ok { s with provisioner := newProvisioner }
    else .error "Invalid address"
  else .error "Ownable caller is not the owner"

/-- pause() of ClawCloudVMs.sol. -/
def pauseC (s : ContractState) (sender : Nat) : Except String ContractState :=
  if sender = s.contractOwner then
    if s.paused then .error "Pausable: paused"
    else .ok { s with paused := true }
  else .error "Ownable caller is not the owner"

/-- unpause() of ClawCloudVMs.sol. -/
def unpauseC (s : ContractState) (sender : Nat) : Except String ContractState :=
  if sender = s.contractOwner then
    if s.paused then .ok { s with paused := false }
    else .error "Pausable: not paused"
  else .error "Ownable caller is not the owner"

/-- The view tuple returned by getVMDetails of ClawCloudVMs.sol. -/
structure VMDetails where
  currentOwner : Nat
  tier : Tier
  purchasedAt : Nat
  expiresAt : Nat
  durationMonths : Nat
  instanceId : String
  ipAddress : String
  status : Status
  active : Bool
deriving DecidableEq, Repr

/-- getVMDetails(tokenId) of ClawCloudVMs.sol, evaluated at block
timestamp `now`. -/
def getVMDetails (s : ContractState) (now tokenId : Nat) :
    Except String VMDetails :=
  match s.owners tokenId with
  | none => .error "VM does not exist"
  | some ownerA =>
    let vm := s.vms tokenId
    .ok { currentOwner := ownerA
          tier := vm.tier
          purchasedAt := vm.purchasedAt
          expiresAt := vm.expiresAt
          durationMonths := vm.durationMonths
          instanceId := vm.instanceId
          ipAddress := vm.ipAddress
          status := vm.status
          active := decide (now < vm.expiresAt) && decide (vm.status = Status.ACTIVE) }

/-- One external transaction against the contract: every entry point of
ClawCloudVMs.sol that writes contract storage. -/
inductive Op
  | purchase (sender now tier durationMonths : Nat)
  | setProvisioned (sender now tokenId : Nat) (instanceId ipAddress : String)
  | renew (sender now tokenId additionalMonths : Nat)
  | terminate (sender now tokenId : Nat)
  | suspend (sender now tokenId : Nat)
  | reactivate (sender now tokenId : Nat)
  | updateIP (sender tokenId : Nat) (newIP : String)
  | transfer (sender toA tokenId : Nat)
  | newTreasury (sender a : Nat)
  | newProvisioner (sender a : Nat)
  | pause (sender : Nat)
  | unpause (sender : Nat)

/-- Dispatch one transaction. -/
def execOp (s : ContractState) : Op → Except String ContractState
  | .purchase sender now tier d => (purchaseVM s sender now tier d).map Prod.fst
  | .setProvisioned sender now tokenId inst ip =>
      setVMProvisioned s sender now tokenId inst ip
  | .renew sender now tokenId m => renewVM s sender now tokenId m
  | .terminate sender now tokenId => terminateVM s sender now tokenId
  | .suspend sender now tokenId => suspendVM s sender now tokenId
  | .reactivate sender now tokenId => reactivateVM s sender now tokenId
  | .updateIP sender tokenId newIP => updateIPAddress s sender tokenId newIP
  | .transfer sender toA tokenId => transferVM s sender toA tokenId
  | .newTreasury sender a => setTreasury s sender a
  | .newProvisioner sender a => setProvisioner s sender a
  | .pause sender => pauseC s sender
  | .unpause sender => unpauseC s sender

/-- Ledger semantics of a transaction: a revert rolls everything back, so
the pre-state survives unchanged. -/
def stepC (s : ContractState) (op : Op) : ContractState :=
  match execOp s op with
  | .ok s1 => s1
  | .error _ => s

/-- Run a sequence of transactions. -/
def run (s : ContractState) (ops : List Op) : ContractState :=
  ops.foldl stepC s

namespace Backend

/-- TIER_NAMES of the backend (index into the enum order). -/
def tierName : Nat → String
  | 0 => "MICRO"
  | 1 => "SMALL"
  | 2 => "MEDIUM"
  | 3 => "LARGE"
  | _ => "XLARGE"

/-- setTimeout interval of the AWS public-IP polling loop, in ms. -/
def AWS_POLL_INTERVAL_MS : Nat := 2000

/-- Attempt bound of the AWS public-IP polling loop
(while !publicIP && attempts < 30). -/
def AWS_POLL_MAX_ATTEMPTS : Nat := 30

/-- Responses the cloud environment would give to the backend during one
provisioning attempt, together with its configuration.  `provider` is
process.env.PREFERRED_PROVIDER (absent means the || fallback to gcp);
`awsPublicIPAt i` is the PublicIpAddress that DescribeInstances returns on
the i-th iteration of the polling loop (none while the field is absent);
the generated RSA key pair is abstracted as the strings it yields. -/
structure ProvEnv where
  provider : Option String
  gcpCreateOk : Bool
  gcpNatIP : String
  awsCreateOk : Bool
  awsInstanceId : String
  awsPublicIPAt : Nat → Option String
  sshPublicKey : String
  sshPrivateKey : String

/-- The object a successful provision resolves to (success: true branch). -/
structure ProvSuccess where
  instanceId : String
  ipAddress : String
  provider : String
  sshPrivateKey : String
deriving DecidableEq, Repr

/-- Resolution of provisionVM: either the success object or the
success: false object carrying the error message. -/
inductive ProvisionOutcome
  | success (r : ProvSuccess)
  | failure (error : String)
deriving DecidableEq, Repr

/-- The while loop of provisionAWS: starting at iteration `attempts`, poll
DescribeInstances once per iteration while no IP was obtained and fewer
than 30 attempts were made. -/
def pollPublicIP (ipAt : Nat → Option String) (attempts : Nat) : Option String :=
  if attempts < AWS_POLL_MAX_ATTEMPTS then
    match ipAt attempts with
    | some ip => some ip
    | none => pollPublicIP ipAt (attempts + 1)
  else none
termination_by AWS_POLL_MAX_ATTEMPTS - attempts

/-- provisionAWS of backend/provisioner.js.  The first component counts
cloud instances actually created by the call (RunInstances succeeding);
the Except models the async function resolving or throwing. -/
def provisionAWS (env : ProvEnv) (_tokenId : Nat) (_tier _buyer : String) :
    Nat × Except String ProvSuccess :=
  if env.awsCreateOk then
    match pollPublicIP env.awsPublicIPAt 0 with
    | some ip =>
        (1, .ok { instanceId := env.awsInstanceId
                  ipAddress := ip
                  provider := "aws"
                  sshPrivateKey := env.sshPrivateKey })
    | none => (1, .error "Failed to get public IP for instance")
  else (0, .error "EC2 RunInstances failed")

/-- provisionGCP of backend/provisioner.js: creates the instance named
clawcloud-tokenId and reads the NAT IP from its metadata once (no polling
loop on this path). -/
def provisionGCP (env : ProvEnv) (tokenId : Nat) (_tier _buyer : String) :
    Nat × Except String ProvSuccess :=
  if env.gcpCreateOk then
    (1, .ok { instanceId := "clawcloud-" ++ toString tokenId
              ipAddress := env.gcpNatIP
              provider := "gcp"
              sshPrivateKey := env.sshPrivateKey })
  else (0, .error "GCP createVM failed")

/-- provisionVM of backend/provisioner.js: picks the provider
(PREFERRED_PROVIDER || gcp), and its try/catch turns any thrown error into
the success: false object, so the caller never sees an exception. -/
def provisionVM (env : ProvEnv) (tokenId : Nat) (tier buyer : String) :
    Nat × ProvisionOutcome :=
  if env.provider.getD "gcp" = "gcp" then
    match provisionGCP env tokenId tier buyer with
    | (n, .ok r) => (n, .success r)
    | (n, .error msg) => (n, .failure msg)
  else if env.provider.getD "gcp" = "aws" then
    match provisionAWS env tokenId tier buyer with
    | (n, .ok r) => (n, .success r)
    | (n, .error msg) => (n, .failure msg)
  else (0, .failure ("Unsupported provider: " ++ env.provider.getD "gcp"))

/-- One record of the Status Store.  Modelled from the spec: the
repository updateVMStatus is an explicit TODO stub (backend/provisioner.js
only logs), so the store itself is modelled from the spec Status Store
interface set(id, state) and from the example upsert in the code comment;
the variants are exactly the four payloads the listener passes. -/
inductive StoreRecord
  | running (instanceId ipAddress provider sshPrivateKey : String)
  | failed (error : String)
  | errored (error : String)
  | terminated
deriving DecidableEq, Repr

/-- updateVMStatus of backend/provisioner.js.  Modelled from the spec: the
body is a TODO stub in the source; the spec store operation set(id, state)
and the commented MongoDB example make it an upsert keyed by tokenId. -/
def updateVMStatus (store : Nat → Option StoreRecord) (tokenId : Nat)
    (rec : StoreRecord) : Nat → Option StoreRecord :=
  setMap store tokenId (some rec)

/-- A VMPurchased event as the listener receives it. -/
structure PurchasedEvent where
  tokenId : Nat
  buyer : Nat
  tier : Nat
  durationMonths : Nat
  expiresAt : Nat
  cost : Nat

/-- Everything the event listener can observe or mutate: the chain, the
per-token count of cloud instances ever created for it, and the Status
Store. -/
structure BackendWorld where
  chain : ContractState
  backendAddr : Nat
  createdInstances : Nat → Nat
  store : Nat → Option StoreRecord

/-- handleVMPurchased of the event listener (src/unnamed/part_000): it
provisions unconditionally, then on success submits setVMProvisioned from
the backend wallet and records running; a rejected transaction throws out
of tx.wait into the catch block, which records errored; a provisioning
failure records failed.  `now` is the block timestamp at which the
setVMProvisioned transaction lands. -/
def handleVMPurchased (env : ProvEnv) (now : Nat) (w : BackendWorld)
    (e : PurchasedEvent) : BackendWorld :=
  let pr := provisionVM env e.tokenId (tierName e.tier) (toString e.buyer)
  let w1 := { w with
                createdInstances :=
                  setMap w.createdInstances e.tokenId
                    (w.createdInstances e.tokenId + pr.1) }
  match pr.2 with
  | .success r =>
      match setVMProvisioned w1.chain w1.backendAddr now e.tokenId
          r.instanceId r.ipAddress with
      | .ok c2 =>
          { w1 with
              chain := c2
              store := updateVMStatus w1.store e.tokenId
                (.running r.instanceId r.ipAddress r.provider r.sshPrivateKey) }
      | .error msg =>
          { w1 with
              store := updateVMStatus w1.store e.tokenId (.errored msg) }
  | .failure msg =>
      { w1 with
          store := updateVMStatus w1.store e.tokenId (.failed msg) }

/-- handleVMTerminated of the event listener: only records terminated in
the store (instance destruction is a TODO in the source). -/
def handleVMTerminated (w : BackendWorld) (tokenId : Nat) : BackendWorld :=
  { w with store := updateVMStatus w.store tokenId .terminated }

end Backend

/-- Global id invariant of the contract: every existing token id is below
the counter (ids are only ever assigned from the counter). -/
def Inv (s : ContractState) : Prop :=
  ∀ id, (s.owners id).isSome = true → id < s.tokenIdCounter

/-- A sample USDC state: address 1 holds 1000 USDC and has approved the
contract for the same amount. -/
def exToken : TokenState :=
  { balances := fun a => if a = 1 then 1000000000 else 0
    allowance := fun a => if a = 1 then 1000000000 else 0 }

/-- A freshly deployed contract: treasury 99, provisioner 7, owner 5. -/
def exGenesis : ContractState :=
  { token := exToken
    treasury := 99
    provisioner := 7
    contractOwner := 5
    tokenIdCounter := 0
    owners := fun _ => none
    vms := fun _ => defaultVM
    everProvisioned := fun _ => false
    paused := false }

/-- State after buyer 1 purchases a MEDIUM VM for 3 months at time 100. -/
def exPurchased : ContractState :=
  match purchaseVM exGenesis 1 100 2 3 with
  | .ok p => p.1
  | .error _ => exGenesis

/-- State after the provisioner reports instance details at time 200. -/
def exProvisioned : ContractState :=
  match setVMProvisioned exPurchased 7 200 0 "i-0abc" "34.10.20.30" with
  | .ok t => t
  | .error _ => exPurchased

/-- A contract holding one SUSPENDED VM (id 0, owner 1) whose expiry is at
time 1000. -/
def exSuspended : ContractState :=
  { exGenesis with
      tokenIdCounter := 1
      owners := fun i => if i = 0 then some 1 else none
      vms := fun i =>
        if i = 0 then
          { defaultVM with
              tier := Tier.MICRO
              expiresAt := 1000
              durationMonths := 1
              status := Status.SUSPENDED }
        else defaultVM }

/-- State after owner 1 terminates VM 0 of exSuspended at time 77. -/
def exTerminated : ContractState :=
  match terminateVM exSuspended 1 77 0 with
  | .ok t => t
  | .error _ => exSuspended

/-- State after owner 1 terminates the provisioned VM 0 at time 300. -/
def exFinal : ContractState :=
  match terminateVM exProvisioned 1 300 0 with
  | .ok t => t
  | .error _ => exProvisioned

/-- A cloud environment with no PREFERRED_PROVIDER (the || falls back to
gcp) whose create calls succeed. -/
def exEnvGCP : Backend.ProvEnv :=
  { provider := none
    gcpCreateOk := true
    gcpNatIP := "34.1.2.3"
    awsCreateOk := true
    awsInstanceId := "i-0abc"
    awsPublicIPAt := fun _ => none
    sshPublicKey := "ssh-rsa AAAA"
    sshPrivateKey := "PRIVATE" }

/-- The same environment with PREFERRED_PROVIDER=aws, where
DescribeInstances never reports a public IP. -/
def exEnvAWS : Backend.ProvEnv :=
  { exEnvGCP with provider := some "aws" }

/-- A fresh backend world watching the chain of exPurchased. -/
def exWorld : Backend.BackendWorld :=
  { chain := exPurchased
    backendAddr := 7
    createdInstances := fun _ => 0
    store := fun _ => none }

/-- The VMPurchased event emitted by the purchase of exPurchased. -/
def exEvent : Backend.PurchasedEvent :=
  { tokenId := 0
    buyer := 1
    tier := 2
    durationMonths := 3
    expiresAt := 100 + 3 * SECONDS_PER_MONTH
    cost := 75000000 }

@[simp]
theorem setMap_same {α : Type} (m : Nat → α) (k : Nat) (v : α) :
    setMap m k v k = v := by
  simp [setMap]

theorem setMap_other {α : Type} (m : Nat → α) (k : Nat) (v : α) (i : Nat)
    (h : i ≠ k) : setMap m k v i = m i := by
  simp [setMap, h]

theorem checkedAdd_some {a b c : Nat} (h : checkedAdd a b = some c) :
    c = a + b := by
  unfold checkedAdd at h
  split at h
  · exact (Option.some.inj h).symm
  · cases h

theorem checkedMul_some {a b c : Nat} (h : checkedMul a b = some c) :
    c = a * b := by
  unfold checkedMul at h
  split at h
  · exact (Option.some.inj h).symm
  · cases h

/-- What a successful USDC capture does to the balances: the payer is
debited and the recipient credited by exactly the requested amount. -/
theorem transferFrom_some {t : TokenState} {fromA toA amount : Nat}
    {t1 : TokenState} (h : t.transferFrom fromA toA amount = some t1)
    (hne : fromA ≠ toA) :
    t1.balances toA = t.balances toA + amount ∧
    t1.balances fromA = t.balances fromA - amount ∧
    amount ≤ t.balances fromA ∧ amount ≤ t.allowance fromA := by
  unfold TokenState.transferFrom at h
  by_cases hc : amount ≤ t.allowance fromA ∧ amount ≤ t.balances fromA
  · rw [if_pos hc] at h
    rcases hadd : checkedAdd (setMap t.balances fromA (t.balances fromA - amount) toA) amount
      with _ | v
    · rw [hadd] at h
      cases h
    · rw [hadd] at h
      have hv := checkedAdd_some hadd
      cases h
      refine ⟨?_, ?_, hc.2, hc.1⟩
      · simp [hv, setMap_other _ _ _ _ (Ne.symm hne)]
      · simp [setMap, hne]
  · rw [if_neg hc] at h
    cases h

/-- Failure condition of the capture: it fails exactly on insufficient
allowance, insufficient balance, or recipient-balance overflow. -/
theorem transferFrom_none {t : TokenState} {fromA toA amount : Nat}
    (h : ¬ (amount ≤ t.allowance fromA ∧ amount ≤ t.balances fromA)) :
    t.transferFrom fromA toA amount = none := by
  unfold TokenState.transferFrom
  split
  · exact absurd (by assumption) h
  · rfl

/-- Inversion of a successful terminateVM: the caller owned the token, it
was not already TERMINATED, and the post-state has the NFT burned and the
VM slot deleted back to the zero struct. -/
theorem terminateVM_ok {s : ContractState} {sender now tokenId : Nat}
    {s1 : ContractState} (h : terminateVM s sender now tokenId = .ok s1) :
    s.owners tokenId = some sender ∧
    (s.vms tokenId).status ≠ Status.TERMINATED ∧
    s1 = { s with
             owners := setMap s.owners tokenId none
             vms := setMap s.vms tokenId defaultVM } := by
  unfold terminateVM at h
  split at h
  · split at h
    · split at h
      · exact ⟨by assumption, by assumption, (Except.ok.inj h).symm⟩
      · cases h
    · cases h
  · cases h

/-- Inversion of a successful setVMProvisioned: the caller was the
provisioner, the VM was still PROVISIONING and unexpired, both strings
were non-empty, and the post-state stores them, moves to ACTIVE, records
provisionedAt and sets the sticky everProvisioned flag. -/
theorem setVMProvisioned_ok {s : ContractState} {sender now tokenId : Nat}
    {instanceId ipAddress : String} {s1 : ContractState}
    (h : setVMProvisioned s sender now tokenId instanceId ipAddress = .ok s1) :
    sender = s.provisioner ∧ (s.owners tokenId).isSome = true ∧
    (s.vms tokenId).status = Status.PROVISIONING ∧
    now < (s.vms tokenId).expiresAt ∧
    0 < instanceId.length ∧ 0 < ipAddress.length ∧
    s1 = { s with
             vms := setMap s.vms tokenId
               { s.vms tokenId with
                   instanceId := instanceId
                   ipAddress := ipAddress
                   status := Status.ACTIVE
                   provisionedAt := now }
             everProvisioned := setMap s.everProvisioned tokenId true } := by
  unfold setVMProvisioned at h
  split at h
  · split at h
    · split at h
      · split at h
        · split at h
          · split at h
            · exact ⟨by assumption, by assumption, by assumption, by assumption,
                by assumption, by assumption, (Except.ok.inj h).symm⟩
            · cases h
          · cases h
        · cases h
      · cases h
    · cases h
  · cases h

/-- Inversion of a successful purchaseVM: all input checks passed, the
token id is the pre-state counter, payment of exactly monthly price times
duration was captured, and the post-state mints the NFT and stores the
fresh PROVISIONING record with expiry now + durationMonths months. -/
theorem purchaseVM_ok {s : ContractState} {sender now tier d : Nat}
    {s1 : ContractState} {tid : Nat}
    (h : purchaseVM s sender now tier d = .ok (s1, tid)) :
    s.paused = false ∧ tier ≤ 4 ∧ 0 < d ∧ d ≤ 12 ∧ sender ≠ 0 ∧
    (s.owners s.tokenIdCounter).isSome = false ∧ tid = s.tokenIdCounter ∧
    ∃ token1,
      s.token.transferFrom sender s.treasury (getTierPrice (tierOfNat tier) * d) =
        some token1 ∧
      s1 = { s with
               token := token1
               tokenIdCounter := s.tokenIdCounter + 1
               owners := setMap s.owners s.tokenIdCounter (some sender)
               vms := setMap s.vms s.tokenIdCounter
                 { tier := tierOfNat tier
                   purchasedAt := now
                   expiresAt := now + d * SECONDS_PER_MONTH
                   durationMonths := d
                   instanceId := ""
                   ipAddress := ""
                   status := Status.PROVISIONING
                   provisionedAt := 0
                   lastRenewal := now } } := by
  unfold purchaseVM at h
  split at h
  · cases h
  · split at h
    · split at h
      · split at h
        · cases h
        · split at h
          · cases h
          · split at h
            · cases h
            · split at h
              · cases h
              · split at h
                · cases h
                · split at h
                  · cases h
                  · split at h
                    · cases h
                    · rename_i hp ht hd x1 totalCost hm x2 token1 htr x3
                        counter1 hc1 hs0 hown x4 dur hdur x5 expiry hexp
                      have hm1 := checkedMul_some hm
                      have hc2 := checkedAdd_some hc1
                      have hd1 := checkedMul_some hdur
                      have he1 := checkedAdd_some hexp
                      subst hm1 hc2 hd1 he1
                      cases h
                      refine ⟨by simpa using hp, ht, hd.1, hd.2, hs0,
                        by simpa using hown, rfl, token1, htr, rfl⟩
      · cases h
    · cases h

/-- Inversion of a successful renewVM: ownership, duration and grace
checks passed, payment of exactly monthly price times added months was
captured, and the expiry extends from now when already past expiry
(reactivating a SUSPENDED VM) and from the old expiry otherwise. -/
theorem renewVM_ok {s : ContractState} {sender now tokenId m : Nat}
    {s1 : ContractState} (h : renewVM s sender now tokenId m = .ok s1) :
    s.paused = false ∧ s.owners tokenId = some sender ∧ 0 < m ∧ m ≤ 12 ∧
    (s.vms tokenId).status ≠ Status.TERMINATED ∧
    now < (s.vms tokenId).expiresAt + GRACE_PERIOD ∧
    ∃ token1,
      s.token.transferFrom sender s.treasury
        (getTierPrice (s.vms tokenId).tier * m) = some token1 ∧
      (((s.vms tokenId).expiresAt < now ∧
          s1 = { s with
                   token := token1
                   vms := setMap s.vms tokenId
                     { s.vms tokenId with
                         expiresAt := now + m * SECONDS_PER_MONTH
                         status :=
                           if (s.vms tokenId).status = Status.SUSPENDED then
                             Status.ACTIVE
                           else (s.vms tokenId).status
                         lastRenewal := now } }) ∨
       (¬ (s.vms tokenId).expiresAt < now ∧
          s1 = { s with
                   token := token1
                   vms := setMap s.vms tokenId
                     { s.vms tokenId with
                         expiresAt := (s.vms tokenId).expiresAt + m * SECONDS_PER_MONTH
                         lastRenewal := now } })) := by
  unfold renewVM at h
  split at h
  · cases h
  · split at h
    · split at h
      · split at h
        · split at h
          · split at h
            · cases h
            · split at h
              · split at h
                · cases h
                · split at h
                  · cases h
                  · split at h
                    · cases h
                    · split at h
                      · split at h
                        · cases h
                        · rename_i hp hown hsend hm hterm x1 graceEnd hg hnow
                            x2 cost hcost x3 token1 htr x4 ext hext hlt x5
                            newExp hadd
                          have hg1 := checkedAdd_some hg
                          have hc1 := checkedMul_some hcost
                          have he1 := checkedMul_some hext
                          have ha1 := checkedAdd_some hadd
                          subst hg1 hc1 he1 ha1
                          cases h
                          exact ⟨by simpa using hp, hsend, hm.1, hm.2, hterm,
                            hnow, token1, htr, Or.inl ⟨hlt, rfl⟩⟩
                      · split at h
                        · cases h
                        · rename_i hp hown hsend hm hterm x1 graceEnd hg hnow
                            x2 cost hcost x3 token1 htr x4 ext hext hnlt x5
                            newExp hadd
                          have hg1 := checkedAdd_some hg
                          have hc1 := checkedMul_some hcost
                          have he1 := checkedMul_some hext
                          have ha1 := checkedAdd_some hadd
                          subst hg1 hc1 he1 ha1
                          cases h
                          exact ⟨by simpa using hp, hsend, hm.1, hm.2, hterm,
                            hnow, token1, htr, Or.inr ⟨hnlt, rfl⟩⟩
              · cases h
          · cases h
        · cases h
      · cases h
    · cases h

/-- Inversion of a successful suspendVM. -/
theorem suspendVM_ok {s : ContractState} {sender now tokenId : Nat}
    {s1 : ContractState} (h : suspendVM s sender now tokenId = .ok s1) :
    (s.owners tokenId).isSome = true ∧
    (s.vms tokenId).status = Status.ACTIVE ∧
    s1 = { s with
             vms := setMap s.vms tokenId
               { s.vms tokenId with status := Status.SUSPENDED } } := by
  unfold suspendVM at h
  split at h
  · split at h
    · split at h
      · exact ⟨by assumption, by assumption, (Except.ok.inj h).symm⟩
      · cases h
    · cases h
  · cases h

/-- Inversion of a successful reactivateVM. -/
theorem reactivateVM_ok {s : ContractState} {sender now tokenId : Nat}
    {s1 : ContractState} (h : reactivateVM s sender now tokenId = .ok s1) :
    s.owners tokenId = some sender ∧
    (s.vms tokenId).status = Status.SUSPENDED ∧
    now < (s.vms tokenId).expiresAt ∧
    s1 = { s with
             vms := setMap s.vms tokenId
               { s.vms tokenId with status := Status.ACTIVE } } := by
  unfold reactivateVM at h
  split at h
  · split at h
    · split at h
      · split at h
        · exact ⟨by assumption, by assumption, by assumption,
            (Except.ok.inj h).symm⟩
        · cases h
      · cases h
    · cases h
  · cases h

/-- Inversion of a successful updateIPAddress. -/
theorem updateIPAddress_ok {s : ContractState} {sender tokenId : Nat}
    {newIP : String} {s1 : ContractState}
    (h : updateIPAddress s sender tokenId newIP = .ok s1) :
    (s.owners tokenId).isSome = true ∧
    s1 = { s with
             vms := setMap s.vms tokenId
               { s.vms tokenId with ipAddress := newIP } } := by
  unfold updateIPAddress at h
  split at h
  · split at h
    · split at h
      · split at h
        · exact ⟨by assumption, (Except.ok.inj h).symm⟩
        · cases h
      · cases h
    · cases h
  · cases h

/-- Inversion of a successful ERC721 transfer. -/
theorem transferVM_ok {s : ContractState} {sender toA tokenId : Nat}
    {s1 : ContractState} (h : transferVM s sender toA tokenId = .ok s1) :
    s.owners tokenId = some sender ∧ toA ≠ 0 ∧
    s1 = { s with owners := setMap s.owners tokenId (some toA) } := by
  unfold transferVM at h
  split at h
  · split at h
    · exact ⟨by assumption, by assumption, (Except.ok.inj h).symm⟩
    · cases h
  · cases h

/-- Inversion of a successful setTreasury. -/
theorem setTreasury_ok {s : ContractState} {sender a : Nat}
    {s1 : ContractState} (h : setTreasury s sender a = .ok s1) :
    s1 = { s with treasury := a } := by
  unfold setTreasury at h
  split at h
  · split at h
    · exact (Except.ok.inj h).symm
    · cases h
  · cases h

/-- Inversion of a successful setProvisioner. -/
theorem setProvisioner_ok {s : ContractState} {sender a : Nat}
    {s1 : ContractState} (h : setProvisioner s sender a = .ok s1) :
    s1 = { s with provisioner := a } := by
  unfold setProvisioner at h
  split at h
  · split at h
    · exact (Except.ok.inj h).symm
    · cases h
  · cases h

/-- Inversion of a successful pause. -/
theorem pauseC_ok {s : ContractState} {sender : Nat} {s1 : ContractState}
    (h : pauseC s sender = .ok s1) : s1 = { s with paused := true } := by
  unfold pauseC at h
  split at h
  · split at h
    · cases h
    · exact (Except.ok.inj h).symm
  · cases h

/-- Inversion of a successful unpause. -/
theorem unpauseC_ok {s : ContractState} {sender : Nat} {s1 : ContractState}
    (h : unpauseC s sender = .ok s1) : s1 = { s with paused := false } := by
  unfold unpauseC at h
  split at h
  · split at h
    · exact (Except.ok.inj h).symm
    · cases h
  · cases h

/-- The token id counter never decreases across any transaction. -/
theorem stepC_counter_mono (s : ContractState) (op : Op) :
    s.tokenIdCounter ≤ (stepC s op).tokenIdCounter := by
  unfold stepC
  cases hexec : execOp s op with
  | error m => exact le_refl _
  | ok s1 =>
    cases op with
    | purchase sender now tier d =>
      simp only [execOp, Except.map] at hexec
      rcases hp : purchaseVM s sender now tier d with _ | p
      · rw [hp] at hexec; cases hexec
      · rw [hp] at hexec
        cases hexec
        obtain ⟨-, -, -, -, -, -, -, t1, -, hs1⟩ := purchaseVM_ok hp
        simp [hs1]
    | setProvisioned sender now tokenId inst ip =>
      simp only [execOp] at hexec
      obtain ⟨-, -, -, -, -, -, hs1⟩ := setVMProvisioned_ok hexec
      simp [hs1]
    | renew sender now tokenId m =>
      simp only [execOp] at hexec
      obtain ⟨-, -, -, -, -, -, t1, -, hs1 | hs1⟩ := renewVM_ok hexec <;>
        simp [hs1.2]
    | terminate sender now tokenId =>
      simp only [execOp] at hexec
      obtain ⟨-, -, hs1⟩ := terminateVM_ok hexec
      simp [hs1]
    | suspend sender now tokenId =>
      simp only [execOp] at hexec
      obtain ⟨-, -, hs1⟩ := suspendVM_ok hexec
      simp [hs1]
    | reactivate sender now tokenId =>
      simp only [execOp] at hexec
      obtain ⟨-, -, -, hs1⟩ := reactivateVM_ok hexec
      simp [hs1]
    | updateIP sender tokenId newIP =>
      simp only [execOp] at hexec
      obtain ⟨-, hs1⟩ := updateIPAddress_ok hexec
      simp [hs1]
    | transfer sender toA tokenId =>
      simp only [execOp] at hexec
      obtain ⟨-, -, hs1⟩ := transferVM_ok hexec
      simp [hs1]
    | newTreasury sender a =>
      simp only [execOp] at hexec
      simp [setTreasury_ok hexec]
    | newProvisioner sender a =>
      simp only [execOp] at hexec
      simp [setProvisioner_ok hexec]
    | pause sender =>
      simp only [execOp] at hexec
      simp [pauseC_ok hexec]
    | unpause sender =>
      simp only [execOp] at hexec
      simp [unpauseC_ok hexec]

/-- A burned id below the counter stays unowned across any transaction:
minting only ever assigns the current counter, every other operation
requires the token to exist. -/
theorem stepC_dead (s : ContractState) (op : Op) (id : Nat)
    (h1 : s.owners id = none) (h2 : id < s.tokenIdCounter) :
    (stepC s op).owners id = none ∧ id < (stepC s op).tokenIdCounter := by
  refine ⟨?_, lt_of_lt_of_le h2 (stepC_counter_mono s op)⟩
  unfold stepC
  cases hexec : execOp s op with
  | error m => exact h1
  | ok s1 =>
    cases op with
    | purchase sender now tier d =>
      simp only [execOp, Except.map] at hexec
      rcases hp : purchaseVM s sender now tier d with _ | p
      · rw [hp] at hexec; cases hexec
      · rw [hp] at hexec
        cases hexec
        obtain ⟨-, -, -, -, -, -, -, t1, -, hs1⟩ := purchaseVM_ok hp
        have hne : id ≠ s.tokenIdCounter := Nat.ne_of_lt h2
        simp [hs1, setMap_other _ _ _ _ hne, h1]
    | setProvisioned sender now tokenId inst ip =>
      simp only [execOp] at hexec
      obtain ⟨-, -, -, -, -, -, hs1⟩ := setVMProvisioned_ok hexec
      simp [hs1, h1]
    | renew sender now tokenId m =>
      simp only [execOp] at hexec
      obtain ⟨-, -, -, -, -, -, t1, -, hs1 | hs1⟩ := renewVM_ok hexec <;>
        simp [hs1.2, h1]
    | terminate sender now tokenId =>
      simp only [execOp] at hexec
      obtain ⟨-, -, hs1⟩ := terminateVM_ok hexec
      by_cases hid : id = tokenId
      · subst hid
        simp [hs1]
      · simp [hs1, setMap_other _ _ _ _ hid, h1]
    | suspend sender now tokenId =>
      simp only [execOp] at hexec
      obtain ⟨-, -, hs1⟩ := suspendVM_ok hexec
      simp [hs1, h1]
    | reactivate sender now tokenId =>
      simp only [execOp] at hexec
      obtain ⟨-, -, -, hs1⟩ := reactivateVM_ok hexec
      simp [hs1, h1]
    | updateIP sender tokenId newIP =>
      simp only [execOp] at hexec
      obtain ⟨-, hs1⟩ := updateIPAddress_ok hexec
      simp [hs1, h1]
    | transfer sender toA tokenId =>
      simp only [execOp] at hexec
      obtain ⟨hfrom, -, hs1⟩ := transferVM_ok hexec
      by_cases hid : id = tokenId
      · subst hid
        rw [h1] at hfrom
        cases hfrom
      · simp [hs1, setMap_other _ _ _ _ hid, h1]
    | newTreasury sender a =>
      simp only [execOp] at hexec
      simp [setTreasury_ok hexec, h1]
    | newProvisioner sender a =>
      simp only [execOp] at hexec
      simp [setProvisioner_ok hexec, h1]
    | pause sender =>
      simp only [execOp] at hexec
      simp [pauseC_ok hexec, h1]
    | unpause sender =>
      simp only [execOp] at hexec
      simp [unpauseC_ok hexec, h1]

/-- The everProvisioned flag is monotone across any single transaction:
only setVMProvisioned writes it, and only to true. -/
theorem stepC_ever (s : ContractState) (op : Op) (id : Nat)
    (h : s.everProvisioned id = true) :
    (stepC s op).everProvisioned id = true := by
  unfold stepC
  cases hexec : execOp s op with
  | error m => exact h
  | ok s1 =>
    cases op with
    | purchase sender now tier d =>
      simp only [execOp, Except.map] at hexec
      rcases hp : purchaseVM s sender now tier d with _ | p
      · rw [hp] at hexec; cases hexec
      · rw [hp] at hexec
        cases hexec
        obtain ⟨-, -, -, -, -, -, -, t1, -, hs1⟩ := purchaseVM_ok hp
        simp [hs1, h]
    | setProvisioned sender now tokenId inst ip =>
      simp only [execOp] at hexec
      obtain ⟨-, -, -, -, -, -, hs1⟩ := setVMProvisioned_ok hexec
      by_cases hid : id = tokenId
      · subst hid
        simp [hs1]
      · simp [hs1, setMap_other _ _ _ _ hid, h]
    | renew sender now tokenId m =>
      simp only [execOp] at hexec
      obtain ⟨-, -, -, -, -, -, t1, -, hs1 | hs1⟩ := renewVM_ok hexec <;>
        simp [hs1.2, h]
    | terminate sender now tokenId =>
      simp only [execOp] at hexec
      obtain ⟨-, -, hs1⟩ := terminateVM_ok hexec
      simp [hs1, h]
    | suspend sender now tokenId =>
      simp only [execOp] at hexec
      obtain ⟨-, -, hs1⟩ := suspendVM_ok hexec
      simp [hs1, h]
    | reactivate sender now tokenId =>
      simp only [execOp] at hexec
      obtain ⟨-, -, -, hs1⟩ := reactivateVM_ok hexec
      simp [hs1, h]
    | updateIP sender tokenId newIP =>
      simp only [execOp] at hexec
      obtain ⟨-, hs1⟩ := updateIPAddress_ok hexec
      simp [hs1, h]
    | transfer sender toA tokenId =>
      simp only [execOp] at hexec
      obtain ⟨-, -, hs1⟩ := transferVM_ok hexec
      simp [hs1, h]
    | newTreasury sender a =>
      simp only [execOp] at hexec
      simp [setTreasury_ok hexec, h]
    | newProvisioner sender a =>
      simp only [execOp] at hexec
      simp [setProvisioner_ok hexec, h]
    | pause sender =>
      simp only [execOp] at hexec
      simp [pauseC_ok hexec, h]
    | unpause sender =>
      simp only [execOp] at hexec
      simp [unpauseC_ok hexec, h]

/-- Across any sequence of transactions a burned id below the counter
stays unowned and below the counter. -/
theorem run_dead (s : ContractState) (ops : List Op) (id : Nat)
    (h1 : s.owners id = none) (h2 : id < s.tokenIdCounter) :
    (run s ops).owners id = none ∧ id < (run s ops).tokenIdCounter := by
  induction ops generalizing s with
  | nil => exact ⟨h1, h2⟩
  | cons op rest ih =>
    obtain ⟨h1s, h2s⟩ := stepC_dead s op id h1 h2
    exact ih (stepC s op) h1s h2s

/-- Across any sequence of transactions the everProvisioned flag stays
true once true. -/
theorem run_ever (s : ContractState) (ops : List Op) (id : Nat)
    (h : s.everProvisioned id = true) :
    (run s ops).everProvisioned id = true := by
  induction ops generalizing s with
  | nil => exact h
  | cons op rest ih => exact ih (stepC s op) (stepC_ever s op id h)

/-- The counter is monotone across any sequence of transactions. -/
theorem run_counter_mono (s : ContractState) (ops : List Op) :
    s.tokenIdCounter ≤ (run s ops).tokenIdCounter := by
  induction ops generalizing s with
  | nil => exact le_refl _
  | cons op rest ih =>
    exact le_trans (stepC_counter_mono s op) (ih (stepC s op))

/-- Fuel-indexed version: if every probe from iteration a up to the
attempt bound reports no address, the polling loop returns none. -/
theorem pollPublicIP_none_aux (ipAt : Nat → Option String) (n : Nat) :
    ∀ a, Backend.AWS_POLL_MAX_ATTEMPTS - a ≤ n →
      (∀ i, i < Backend.AWS_POLL_MAX_ATTEMPTS → ipAt i = none) →
      Backend.pollPublicIP ipAt a = none := by
  induction n with
  | zero =>
    intro a ha h
    unfold Backend.pollPublicIP
    split
    · omega
    · rfl
  | succ n ih =>
    intro a ha h
    unfold Backend.pollPublicIP
    split
    · rename_i hlt
      rw [h a hlt]
      exact ih (a + 1) (by omega) h
    · rfl

/-- If no probe below the attempt bound reports an address, the polling
loop returns none. -/
theorem pollPublicIP_none (ipAt : Nat → Option String)
    (h : ∀ i, i < Backend.AWS_POLL_MAX_ATTEMPTS → ipAt i = none) :
    Backend.pollPublicIP ipAt 0 = none :=
  pollPublicIP_none_aux ipAt Backend.AWS_POLL_MAX_ATTEMPTS 0 (by omega) h

/-- Fuel-indexed congruence: the polling loop only ever consults probes
below the attempt bound. -/
theorem pollPublicIP_congr_aux (f g : Nat → Option String) (n : Nat) :
    ∀ a, Backend.AWS_POLL_MAX_ATTEMPTS - a ≤ n →
      (∀ i, i < Backend.AWS_POLL_MAX_ATTEMPTS → f i = g i) →
      Backend.pollPublicIP f a = Backend.pollPublicIP g a := by
  induction n with
  | zero =>
    intro a ha h
    unfold Backend.pollPublicIP
    split
    · omega
    · rfl
  | succ n ih =>
    intro a ha h
    unfold Backend.pollPublicIP
    split
    · rename_i hlt
      rw [h a hlt]
      cases hg : g a with
      | some ip => rfl
      | none => exact ih (a + 1) (by omega) h
    · rfl

/-- The polling loop depends only on the probes below the attempt bound:
describe is called at most AWS_POLL_MAX_ATTEMPTS times. -/
theorem pollPublicIP_congr (f g : Nat → Option String)
    (h : ∀ i, i < Backend.AWS_POLL_MAX_ATTEMPTS → f i = g i) :
    Backend.pollPublicIP f 0 = Backend.pollPublicIP g 0 :=
  pollPublicIP_congr_aux f g Backend.AWS_POLL_MAX_ATTEMPTS 0 (by omega) h

/-- C1: setProvisioned is one-shot.  After a successful setVMProvisioned
for an id, the stored instanceId and networkAddress are exactly the values
of that call, and any second setVMProvisioned call for the same id, by any
caller, at any time, with any arguments, is rejected and (being a revert)
leaves the whole contract state, in particular the stored instance fields,
unchanged. -/
theorem C1_setProvisioned_one_shot {s s1 : ContractState}
    {sender now tokenId : Nat} {instanceId ipAddress : String}
    (h : setVMProvisioned s sender now tokenId instanceId ipAddress = .ok s1) :
    (s1.vms tokenId).instanceId = instanceId ∧
    (s1.vms tokenId).ipAddress = ipAddress ∧
    ∀ sender2 now2 inst2 ip2,
      (setVMProvisioned s1 sender2 now2 tokenId inst2 ip2).isOk = false ∧
      stepC s1 (Op.setProvisioned sender2 now2 tokenId inst2 ip2) = s1 := by
  obtain ⟨hsend, hex, hstat, hexp, hi, hip, hs1⟩ := setVMProvisioned_ok h
  have hstat1 : (s1.vms tokenId).status = Status.ACTIVE := by
    rw [hs1]
    simp
  have hinst : (s1.vms tokenId).instanceId = instanceId := by
    rw [hs1]
    simp
  have hipA : (s1.vms tokenId).ipAddress = ipAddress := by
    rw [hs1]
    simp
  clear hs1 h
  refine ⟨hinst, hipA, ?_⟩
  intro sender2 now2 inst2 ip2
  have hrej : (setVMProvisioned s1 sender2 now2 tokenId inst2 ip2).isOk = false := by
    unfold setVMProvisioned
    repeat' split
    all_goals try rfl
    all_goals simp_all
  refine ⟨hrej, ?_⟩
  simp only [stepC, execOp]
  rcases h2 : setVMProvisioned s1 sender2 now2 tokenId inst2 ip2 with msg | t
  · rfl
  · rw [h2] at hrej
    exact Bool.noConfusion hrej

/-- C1 witness: on the sample chain, the provisioner reports instance
details once successfully; the repeated identical call is rejected and the
stored fields still hold the first values. -/
theorem C1_witness :
    (exProvisioned.vms 0).instanceId = "i-0abc" ∧
    (exProvisioned.vms 0).ipAddress = "34.10.20.30" ∧
    (setVMProvisioned exProvisioned 7 300 0 "i-0abc" "34.10.20.30").isOk = false := by
  have hc := @C1_setProvisioned_one_shot exPurchased exProvisioned 7 200 0
    "i-0abc" "34.10.20.30" rfl
  exact ⟨hc.1, hc.2.1, (hc.2.2 7 300 "i-0abc" "34.10.20.30").1⟩

/-- C4: purchase pricing and expiry arithmetic.  A successful purchase for
any tier in 0..4 and duration in 1..12 moves exactly monthly price times
duration (6-decimal integer units, no rounding) from the buyer to the
treasury, assigns the counter as token id, and stores expiresAt equal to
the purchase time plus duration times 2629800 seconds. -/
theorem C4_purchase_pricing {s s1 : ContractState} {sender now tier d tid : Nat}
    (h : purchaseVM s sender now tier d = .ok (s1, tid))
    (hne : sender ≠ s.treasury) :
    tier ≤ 4 ∧ 1 ≤ d ∧ d ≤ 12 ∧ tid = s.tokenIdCounter ∧
    s1.token.balances s.treasury =
      s.token.balances s.treasury + getTierPrice (tierOfNat tier) * d ∧
    s1.token.balances sender =
      s.token.balances sender - getTierPrice (tierOfNat tier) * d ∧
    (s1.vms tid).purchasedAt = now ∧
    (s1.vms tid).expiresAt = now + d * SECONDS_PER_MONTH ∧
    (s1.vms tid).durationMonths = d := by
  obtain ⟨hp, ht, hd1, hd2, hs0, hown, htid, t1, htr, hs1⟩ := purchaseVM_ok h
  subst htid
  obtain ⟨hto, hfrom, -, -⟩ := transferFrom_some htr hne
  refine ⟨ht, hd1, hd2, rfl, ?_, ?_, ?_, ?_, ?_⟩
  · rw [hs1]
    exact hto
  · rw [hs1]
    exact hfrom
  · rw [hs1]
    simp
  · rw [hs1]
    simp
  · rw [hs1]
    simp

/-- C4 witness: Scenario A.  Tier index 2 (MEDIUM, monthly price 25 USDC)
for 3 months at time 100 costs exactly 75000000 six-decimal units and the
stored expiry is 100 + 3 * 2629800. -/
theorem C4_witness :
    getTierPrice (tierOfNat 2) * 3 = 75000000 ∧
    exPurchased.token.balances 99 =
      exGenesis.token.balances 99 + getTierPrice (tierOfNat 2) * 3 ∧
    exPurchased.token.balances 99 = 75000000 ∧
    (exPurchased.vms 0).expiresAt = 100 + 3 * SECONDS_PER_MONTH ∧
    (exPurchased.vms 0).expiresAt = 100 + 3 * 2629800 := by
  have hc := @C4_purchase_pricing exGenesis exPurchased 1 100 2 3 0 rfl
    (by decide)
  exact ⟨by decide, hc.2.2.2.2.1, by decide, hc.2.2.2.2.2.2.2.1, by decide⟩

/-- C5: purchase atomicity and input validation.  If the tier is out of
range, the duration is outside 1..12, or the USDC capture fails, the
purchase reverts: the call returns an error and the resulting chain state
is exactly the pre-state (no entitlement record, no balance change, no
counter change). -/
theorem C5_purchase_atomicity (s : ContractState) (sender now tier d : Nat)
    (h : ¬ tier ≤ 4 ∨ ¬ (0 < d ∧ d ≤ 12) ∨
      s.token.transferFrom sender s.treasury (getTierPrice (tierOfNat tier) * d) =
        none) :
    (purchaseVM s sender now tier d).isOk = false ∧
    stepC s (Op.purchase sender now tier d) = s := by
  rcases hp : purchaseVM s sender now tier d with msg | p
  · constructor
    · rfl
    · simp only [stepC, execOp]
      rw [hp]
      rfl
  · exfalso
    obtain ⟨s1, tid⟩ := p
    obtain ⟨-, ht, hd1, hd2, -, -, -, t1, htr, -⟩ := purchaseVM_ok hp
    rcases h with h | h | h
    · exact h ht
    · exact h ⟨hd1, hd2⟩
    · rw [h] at htr
      cases htr

/-- C5 witness: on the sample chain, a purchase with tier 9, one with
duration 0, one with duration 13, and one whose payment capture fails
(buyer 2 has no balance or allowance) are all rejected with the state
unchanged. -/
theorem C5_witness :
    (purchaseVM exGenesis 1 100 9 3).isOk = false ∧
    stepC exGenesis (Op.purchase 1 100 9 3) = exGenesis ∧
    (purchaseVM exGenesis 1 100 2 0).isOk = false ∧
    (purchaseVM exGenesis 1 100 2 13).isOk = false ∧
    (purchaseVM exGenesis 2 100 2 3).isOk = false ∧
    stepC exGenesis (Op.purchase 2 100 2 3) = exGenesis := by
  have h9 := C5_purchase_atomicity exGenesis 1 100 9 3 (Or.inl (by decide))
  have h0 := C5_purchase_atomicity exGenesis 1 100 2 0 (Or.inr (Or.inl (by decide)))
  have h13 := C5_purchase_atomicity exGenesis 1 100 2 13 (Or.inr (Or.inl (by decide)))
  have hpay := C5_purchase_atomicity exGenesis 2 100 2 3
    (Or.inr (Or.inr (transferFrom_none (by decide))))
  exact ⟨h9.1, h9.2, h0.1, h13.1, hpay.1, hpay.2⟩

/-- C6: renewal before expiry.  A successful renewVM at a time strictly
before the stored expiry extends the expiry by additionalMonths times
SECONDS_PER_MONTH on top of the old expiry (and the status is not
touched). -/
theorem C6_renew_before_expiry {s s1 : ContractState}
    {sender now tokenId m : Nat} (h : renewVM s sender now tokenId m = .ok s1)
    (hnow : now < (s.vms tokenId).expiresAt) :
    (s1.vms tokenId).expiresAt =
      (s.vms tokenId).expiresAt + m * SECONDS_PER_MONTH ∧
    (s1.vms tokenId).status = (s.vms tokenId).status := by
  obtain ⟨-, -, -, -, -, -, t1, -, hbr | hbr⟩ := renewVM_ok h
  · exact absurd hbr.1 (by omega)
  · rw [hbr.2]
    simp

/-- C6 witness: on the sample provisioned chain (expiry 7889500), owner 1
renews for 2 months at time 5000 and the stored expiry becomes the old one
plus 2 * 2629800. -/
theorem C6_witness :
    ((renewVM exProvisioned 1 5000 0 2).map
        (fun t => (t.vms 0).expiresAt)) =
      Except.ok ((exProvisioned.vms 0).expiresAt + 2 * SECONDS_PER_MONTH) := by
  rcases hr : renewVM exProvisioned 1 5000 0 2 with msg | s1
  · have hok : (renewVM exProvisioned 1 5000 0 2).isOk = true := by decide
    rw [hr] at hok
    exact Bool.noConfusion hok
  · have hc := @C6_renew_before_expiry exProvisioned s1 1 5000 0 2 hr (by decide)
    rw [Except.map, hc.1]

/-- C3 counterexample: at the exact boundary now = expiresAt the claim
calls the entitlement expired (expired = now at least expiresAt) and so
requires a SUSPENDED entitlement to become ACTIVE, but renewVM takes its
not-expired branch (the source tests block.timestamp > vm.expiresAt, a
strict comparison) and the status stays SUSPENDED.  Concretely: expiry
1000, renewal by owner 1 at time 1000, 1 month, inside the grace window;
the renewal succeeds and the post-state status is still SUSPENDED. -/
theorem C3_counterexample :
    (exSuspended.vms 0).status = Status.SUSPENDED ∧
    (exSuspended.vms 0).expiresAt ≤ 1000 ∧
    1000 < (exSuspended.vms 0).expiresAt + GRACE_PERIOD ∧
    ((renewVM exSuspended 1 1000 0 1).map (fun t => (t.vms 0).status)) =
      Except.ok Status.SUSPENDED := by
  exact ⟨rfl, by decide, by decide, rfl⟩

/-- C3 amended: renewal after expiry but within grace.  For a successful
renewVM at a time now with expiresAt at most now (and now within the grace
window, which success implies), the new expiry equals
now + additionalMonths * SECONDS_PER_MONTH; a SUSPENDED entitlement
becomes ACTIVE when now is strictly past expiresAt, while at the exact
boundary now = expiresAt the code takes its not-expired branch and leaves
the status unchanged (the expiry values of the two branches coincide
there). -/
theorem C3_renew_within_grace {s s1 : ContractState}
    {sender now tokenId m : Nat} (h : renewVM s sender now tokenId m = .ok s1)
    (hexp : (s.vms tokenId).expiresAt ≤ now) :
    (s1.vms tokenId).expiresAt = now + m * SECONDS_PER_MONTH ∧
    ((s.vms tokenId).expiresAt < now →
      (s.vms tokenId).status = Status.SUSPENDED →
      (s1.vms tokenId).status = Status.ACTIVE) ∧
    (now = (s.vms tokenId).expiresAt →
      (s1.vms tokenId).status = (s.vms tokenId).status) := by
  obtain ⟨-, -, -, -, -, -, t1, -, hbr | hbr⟩ := renewVM_ok h
  · obtain ⟨hlt, hs1⟩ := hbr
    refine ⟨by rw [hs1]; simp, ?_, ?_⟩
    · intro hlt2 hsusp
      rw [hs1]
      simp [hsusp]
    · intro heq
      exact absurd hlt (by omega)
  · obtain ⟨hnlt, hs1⟩ := hbr
    have heq : (s.vms tokenId).expiresAt = now := by omega
    refine ⟨?_, ?_, ?_⟩
    · rw [hs1]
      simp [heq]
    · intro hlt2 hsusp
      exact absurd hlt2 hnlt
    · intro heq2
      rw [hs1]
      simp

/-- C3 witness: one second past the boundary the amended claim applies in
full: a SUSPENDED entitlement with expiry 1000 renewed at 1001 for 1 month
becomes ACTIVE with expiry 1001 + 2629800. -/
theorem C3_witness :
    ((renewVM exSuspended 1 1001 0 1).map
        (fun t => ((t.vms 0).expiresAt, (t.vms 0).status))) =
      Except.ok (1001 + 1 * SECONDS_PER_MONTH, Status.ACTIVE) := by
  rcases hr : renewVM exSuspended 1 1001 0 1 with msg | s1
  · have hok : (renewVM exSuspended 1 1001 0 1).isOk = true := by decide
    rw [hr] at hok
    exact Bool.noConfusion hok
  · have hc := @C3_renew_within_grace exSuspended s1 1 1001 0 1 hr (by decide)
    rw [Except.map, hc.1, hc.2.1 (by decide) (by decide)]

/-- C7: renewal at or after the end of the grace window is always
rejected: whatever the caller, amounts or prior status, renewVM reverts,
so the post-transaction state (balances and entitlement record included)
is exactly the pre-state. -/
theorem C7_renew_after_grace (s : ContractState) (sender now tokenId m : Nat)
    (hg : (s.vms tokenId).expiresAt + GRACE_PERIOD ≤ now) :
    (renewVM s sender now tokenId m).isOk = false ∧
    stepC s (Op.renew sender now tokenId m) = s := by
  rcases hr : renewVM s sender now tokenId m with msg | s1
  · constructor
    · rfl
    · simp only [stepC, execOp]
      rw [hr]
  · exfalso
    obtain ⟨-, -, -, -, -, hnow, -⟩ := renewVM_ok hr
    omega

/-- C7 witness: Scenario C.  Expiry T = 1000, renewal attempted at
T + 8 days with GRACE_PERIOD = 7 days is rejected and changes nothing. -/
theorem C7_witness :
    GRACE_PERIOD = 7 * 86400 ∧
    (renewVM exSuspended 1 (1000 + 8 * 86400) 0 1).isOk = false ∧
    stepC exSuspended (Op.renew 1 (1000 + 8 * 86400) 0 1) = exSuspended := by
  have hc := C7_renew_after_grace exSuspended 1 (1000 + 8 * 86400) 0 1 (by decide)
  exact ⟨rfl, hc.1, hc.2⟩

/-- C8: termination is absorbing and deletes the record.  Under the id
invariant, a successful owner terminate burns the NFT and resets the VM
slot to the zero struct, getVMDetails fails as not-found at any later
time, and across every subsequent transaction sequence the id stays
unowned, stays below the counter, and is never the id assigned by a later
purchase. -/
theorem C8_terminate_absorbing {s s1 : ContractState}
    {sender now tokenId : Nat} (hInv : Inv s)
    (h : terminateVM s sender now tokenId = .ok s1) :
    s1.owners tokenId = none ∧
    s1.vms tokenId = defaultVM ∧
    (∀ now2, (getVMDetails s1 now2 tokenId).isOk = false) ∧
    ∀ ops,
      (run s1 ops).owners tokenId = none ∧
      (∀ now2, (getVMDetails (run s1 ops) now2 tokenId).isOk = false) ∧
      tokenId < (run s1 ops).tokenIdCounter ∧
      ∀ sender2 now2 tier2 d2 s2 tid2,
        purchaseVM (run s1 ops) sender2 now2 tier2 d2 = .ok (s2, tid2) →
        tid2 ≠ tokenId := by
  obtain ⟨hown, hterm, hs1⟩ := terminateVM_ok h
  have hlt : tokenId < s.tokenIdCounter := hInv tokenId (by rw [hown]; rfl)
  have h1 : s1.owners tokenId = none := by
    rw [hs1]
    simp
  have h2 : s1.vms tokenId = defaultVM := by
    rw [hs1]
    simp
  have hlt1 : tokenId < s1.tokenIdCounter := by
    rw [hs1]
    exact hlt
  have hdet : ∀ t : ContractState, t.owners tokenId = none →
      ∀ now2, (getVMDetails t now2 tokenId).isOk = false := by
    intro t ht now2
    unfold getVMDetails
    rw [ht]
    rfl
  refine ⟨h1, h2, hdet s1 h1, ?_⟩
  intro ops
  obtain ⟨hopsnone, hopslt⟩ := run_dead s1 ops tokenId h1 hlt1
  refine ⟨hopsnone, hdet _ hopsnone, hopslt, ?_⟩
  intro sender2 now2 tier2 d2 s2 tid2 hp
  obtain ⟨-, -, -, -, -, -, htid, -⟩ := purchaseVM_ok hp
  omega

/-- C8 witness: terminating the sample SUSPENDED VM deletes its record,
the lookup fails afterwards, and after a further purchase the freed id is
still unowned. -/
theorem C8_witness :
    exTerminated.owners 0 = none ∧
    exTerminated.vms 0 = defaultVM ∧
    (getVMDetails exTerminated 2000 0).isOk = false ∧
    (run exTerminated [Op.purchase 1 5000 0 1]).owners 0 = none := by
  have hInv : Inv exSuspended := by
    intro id hid
    by_cases h0 : id = 0
    · subst h0
      decide
    · exfalso
      have hone : exSuspended.owners id = none := by
        simp [exSuspended, h0]
      rw [hone] at hid
      exact Bool.noConfusion hid
  have hc := @C8_terminate_absorbing exSuspended exTerminated 1 77 0 hInv rfl
  exact ⟨hc.1, hc.2.1, hc.2.2.1 2000, (hc.2.2.2 [Op.purchase 1 5000 0 1]).1⟩

/-- C10: everProvisioned is permanently sticky.  Once a successful
setVMProvisioned sets the flag for an id, every subsequent transaction
sequence leaves it true; in particular a successful terminate deletes the
entitlement record and burns the NFT but still leaves the flag true. -/
theorem C10_everProvisioned_sticky {s s1 : ContractState}
    {sender now tokenId : Nat} {instanceId ipAddress : String}
    (h : setVMProvisioned s sender now tokenId instanceId ipAddress = .ok s1) :
    s1.everProvisioned tokenId = true ∧
    (∀ ops, (run s1 ops).everProvisioned tokenId = true) ∧
    ∀ sender2 now2 s2, terminateVM s1 sender2 now2 tokenId = .ok s2 →
      s2.everProvisioned tokenId = true ∧
      s2.vms tokenId = defaultVM ∧
      s2.owners tokenId = none := by
  obtain ⟨-, -, -, -, -, -, hs1⟩ := setVMProvisioned_ok h
  have h1 : s1.everProvisioned tokenId = true := by
    rw [hs1]
    simp
  refine ⟨h1, fun ops => run_ever s1 ops tokenId h1, ?_⟩
  intro sender2 now2 s2 ht
  obtain ⟨-, -, hs2⟩ := terminateVM_ok ht
  refine ⟨?_, ?_, ?_⟩ <;> rw [hs2] <;> simp [h1]

/-- C10 witness: after provisioning VM 0 and then terminating it, the
record is gone (owner cleared) but everProvisioned 0 is still true. -/
theorem C10_witness :
    exProvisioned.everProvisioned 0 = true ∧
    (run exProvisioned [Op.terminate 1 300 0]).everProvisioned 0 = true ∧
    exFinal.everProvisioned 0 = true ∧
    exFinal.owners 0 = none := by
  have hc := @C10_everProvisioned_sticky exPurchased exProvisioned 7 200 0
    "i-0abc" "34.10.20.30" rfl
  have ht := hc.2.2 1 300 exFinal rfl
  exact ⟨hc.1, hc.2.1 [Op.terminate 1 300 0], ht.1, ht.2.2⟩

/-- On the gcp path with a working cloud, every delivery of a Purchased
event creates one more cloud instance for that id, whatever the Status
Store already records: the handler never consults the store before
provisioning. -/
theorem handleVMPurchased_always_creates (env : Backend.ProvEnv) (now : Nat)
    (w : Backend.BackendWorld) (e : Backend.PurchasedEvent)
    (hprov : env.provider.getD "gcp" = "gcp") (hok : env.gcpCreateOk = true) :
    (Backend.handleVMPurchased env now w e).createdInstances e.tokenId =
      w.createdInstances e.tokenId + 1 := by
  simp only [Backend.handleVMPurchased, Backend.provisionVM, Backend.provisionGCP,
    hprov, hok, if_true]
  split <;> simp [Backend.updateVMStatus, setMap]

/-- C2: reconciler idempotency fails on the code.  Delivering the same
Purchased event (token 0) twice to the listener creates two cloud
instances: the first delivery provisions, writes back and records running
in the Status Store, yet the second delivery still issues a fresh cloud
create (its write-back is then rejected on-chain and recorded as errored).
The handler has no Status Store consultation before provisioning. -/
theorem C2_duplicate_event_creates_two :
    (Backend.handleVMPurchased exEnvGCP 200 exWorld exEvent).createdInstances 0 = 1 ∧
    (Backend.handleVMPurchased exEnvGCP 200 exWorld exEvent).store 0 =
      some (Backend.StoreRecord.running "clawcloud-0" "34.1.2.3" "gcp" "PRIVATE") ∧
    (Backend.handleVMPurchased exEnvGCP 300
        (Backend.handleVMPurchased exEnvGCP 200 exWorld exEvent)
        exEvent).createdInstances 0 = 2 := by
  exact ⟨rfl, rfl, rfl⟩

/-- C9: bounded address polling with recoverable failure.  The AWS polling
loop runs a fixed 2000 ms interval for at most 30 attempts and never
consults a probe beyond that bound; when no probe below the bound yields
an address the attempt throws, provisionVM resolves to the success:false
object, and the listener records status failed for the id in the Status
Store without touching the chain and without the exception escaping. -/
theorem C9_poll_bounded (env : Backend.ProvEnv) (now : Nat)
    (w : Backend.BackendWorld) (e : Backend.PurchasedEvent) (t b : String)
    (hprov : env.provider = some "aws") (hok : env.awsCreateOk = true)
    (hnone : ∀ i, i < Backend.AWS_POLL_MAX_ATTEMPTS → env.awsPublicIPAt i = none) :
    Backend.AWS_POLL_MAX_ATTEMPTS = 30 ∧
    Backend.AWS_POLL_INTERVAL_MS = 2000 ∧
    Backend.pollPublicIP env.awsPublicIPAt 0 = none ∧
    (∀ g, (∀ i, i < Backend.AWS_POLL_MAX_ATTEMPTS → g i = env.awsPublicIPAt i) →
      Backend.pollPublicIP g 0 = none) ∧
    (Backend.provisionVM env e.tokenId t b).2 =
      .failure "Failed to get public IP for instance" ∧
    (Backend.handleVMPurchased env now w e).store e.tokenId =
      some (.failed "Failed to get public IP for instance") ∧
    (Backend.handleVMPurchased env now w e).chain = w.chain := by
  have hpoll := pollPublicIP_none env.awsPublicIPAt hnone
  have hfail : ∀ tok : Nat, ∀ t2 b2 : String,
      Backend.provisionVM env tok t2 b2 =
        (1, .failure "Failed to get public IP for instance") := by
    intro tok t2 b2
    simp only [Backend.provisionVM, Backend.provisionAWS, hprov, hok, hpoll,
      if_true, Option.getD]
    rfl
  refine ⟨rfl, rfl, hpoll, ?_, ?_, ?_, ?_⟩
  · intro g hg
    exact (pollPublicIP_congr g env.awsPublicIPAt hg).trans hpoll
  · rw [hfail]
  · simp only [Backend.handleVMPurchased, hfail, Backend.updateVMStatus]
    simp
  · simp only [Backend.handleVMPurchased, hfail]

/-- C9 witness: with PREFERRED_PROVIDER=aws and DescribeInstances never
reporting a public IP, the poll returns none, the provisioning attempt
resolves to success:false, and the listener records failed for token 0. -/
theorem C9_witness :
    Backend.pollPublicIP exEnvAWS.awsPublicIPAt 0 = none ∧
    (Backend.provisionVM exEnvAWS 0 "MEDIUM" "1").2 =
      .failure "Failed to get public IP for instance" ∧
    (Backend.handleVMPurchased exEnvAWS 200 exWorld exEvent).store 0 =
      some (.failed "Failed to get public IP for instance") := by
  have hc := C9_poll_bounded exEnvAWS 200 exWorld exEvent "MEDIUM" "1" rfl rfl
    (fun i hi => rfl)
  exact ⟨hc.2.2.1, hc.2.2.2.2.1, hc.2.2.2.2.2.1⟩

end ClawCloud
